import Mathlib

/-! PierogiGo order pricing: delivery fee, tax and total.

A shallow embedding of `src/delivery.js`, `src/tax.js` and `src/total.js`.

Conventions of the embedding:

* JavaScript numbers are modelled exactly: cent amounts, quantities and prices are integers
  (`Int`), rates are rationals (`ℚ`), and `Math.floor` is `Int.floor`. At the fixed rates
  0.05, 0.08, 0.10 and 0.12 the exact floor is the double-precision one on amounts of
  ordinary size. For an arbitrary rate it need not be (375 * 0.072 is 27 exactly and
  26.999999999999996 in doubles), so `taxWith` leaves the floored product as a parameter.
* An argument or field that may be omitted (or `null`) is an `Option`; an object is always
  truthy, so `a || b || c` on objects picks the first one that is present.
* A lookup `table[key]` in an object literal finds the literal's own properties and, failing
  that, the members every object inherits from `Object.prototype`; only when both fail is the
  result `undefined`.
* `for (const item of order.items)` loops are left folds over the item list.
* `subtotal`, `discounts` and `TaxAPI.lookup` live in modules that are not part of the
  sources at hand; they are parameters of the functions that call them.
-/

namespace PierogiGo

/-! ## Data model -/

/-- One line of an order. -/
structure OrderItem where
  sku : String
  kind : String
  title : String
  filling : String
  qty : Int
  unitPriceCents : Int
  addOns : List String

/-- Delivery information: zone, rush flag and distance. -/
structure DeliveryInfo where
  zone : String
  rush : Bool
  distanceKm : ℚ

/-- Customer profile; the tier may be missing. -/
structure CustomerProfile where
  tier : Option String

/-- An order; `delivery`, `customer` and `coupon` may be missing. -/
structure Order where
  id : String
  items : List OrderItem
  delivery : Option DeliveryInfo
  customer : Option CustomerProfile
  coupon : Option String

/-- The second argument of `total`. The coupon field distinguishes an omitted field (`none`)
from an explicit `null` (`some none`) and from a code (`some (some c)`). -/
structure Context where
  profile : Option CustomerProfile
  delivery : Option DeliveryInfo
  coupon : Option (Option String)

/-- The literal `{ zone: 'local', rush: false, distanceKm: 1 }`. -/
def defaultDelivery : DeliveryInfo := { zone := "local", rush := false, distanceKm := 1 }

/-- The literal `{ tier: 'guest' }`. -/
def defaultCustomer : CustomerProfile := { tier := some "guest" }

/-! ## Property lookup in object literals -/

/-- Result of reading `table[key]` on an object literal. -/
inductive Member (α : Type) where
  /-- The literal has the key itself. -/
  | own (v : α) : Member α
  /-- The key names a member inherited from `Object.prototype` (a function, or the prototype
  object itself for `__proto__`): truthy, not a number, without entries of its own. -/
  | inherited : Member α
  /-- No such property: `undefined`. -/
  | undefined : Member α

/-- The property names of `Object.prototype`. -/
def objectPrototypeKeys : List String :=
  ["constructor", "__defineGetter__", "__defineSetter__", "hasOwnProperty",
   "__lookupGetter__", "__lookupSetter__", "isPrototypeOf", "propertyIsEnumerable",
   "toString", "valueOf", "__proto__", "toLocaleString"]

/-- The property key a tier value is converted to; a missing tier reads as `"undefined"`. -/
def propertyKey : Option String → String
  | some s => s
  | none => "undefined"

/-- Reads `table[key]`. -/
def getMember {α : Type} (table : List (String × α)) (key : String) : Member α :=
  match table.lookup key with
  | some v => Member.own v
  | none => if key ∈ objectPrototypeKeys then Member.inherited else Member.undefined

/-! ## delivery.js -/

/-- The value of one tier in `volumeDiscounts`: `{ 12: r12, 24: r24 }`. -/
structure PackRates where
  pack12 : ℚ
  pack24 : ℚ

/-- The table `volumeDiscounts` of `deliveryFee`. -/
def volumeDiscounts : List (String × PackRates) :=
  [("guest", { pack12 := 0.05, pack24 := 0.10 }),
   ("regular", { pack12 := 0.08, pack24 := 0.12 }),
   ("vip", { pack12 := 0.05, pack24 := 0.10 })]

/-- The table `freeDeliveryThresholds` of `deliveryFee`. -/
def freeDeliveryThresholds : List (String × Int) :=
  [("guest", 5000), ("regular", 4000), ("vip", 3000)]

/-- The expression `volumeDiscounts[customer.tier] || volumeDiscounts['guest']`. -/
def tierDiscountsOf (tier : Option String) : Member PackRates :=
  match getMember volumeDiscounts (propertyKey tier) with
  | Member.undefined => getMember volumeDiscounts "guest"
  | m => m

/-- Reads `tierDiscounts[24]`; an absent entry is `undefined`, here `none`. -/
def rate24 : Member PackRates → Option ℚ
  | Member.own r => some r.pack24
  | _ => none

/-- Reads `tierDiscounts[12]`; an absent entry is `undefined`, here `none`. -/
def rate12 : Member PackRates → Option ℚ
  | Member.own r => some r.pack12
  | _ => none

/-- Truthiness of a rate read from the table: `undefined` and `0` are falsy. -/
def truthyRate : Option ℚ → Bool
  | some r => decide (r ≠ 0)
  | none => false

/-- Body of the first loop: `discountedSubtotal += item.unitPriceCents * item.qty`. -/
def subtotalStep (discountedSubtotal : Int) (item : OrderItem) : Int :=
  discountedSubtotal + item.unitPriceCents * item.qty

/-- Body of the second loop, which accumulates `totalVolumeDiscount`. -/
def volumeStep (tierDiscounts : Member PackRates) (totalVolumeDiscount : Int)
    (item : OrderItem) : Int :=
  let itemSubtotal := item.unitPriceCents * item.qty
  if item.qty ≥ 24 ∧ truthyRate (rate24 tierDiscounts) = true then
    totalVolumeDiscount + ⌊(itemSubtotal : ℚ) * (rate24 tierDiscounts).getD 0⌋
  else if item.qty ≥ 12 ∧ truthyRate (rate12 tierDiscounts) = true then
    totalVolumeDiscount + ⌊(itemSubtotal : ℚ) * (rate12 tierDiscounts).getD 0⌋
  else
    totalVolumeDiscount

/-- The threshold after `if (!threshold) threshold = freeDeliveryThresholds['guest']`. -/
def thresholdOf (tier : Option String) : Member Int :=
  match getMember freeDeliveryThresholds (propertyKey tier) with
  | Member.own v => if v = 0 then getMember freeDeliveryThresholds "guest" else Member.own v
  | Member.inherited => Member.inherited
  | Member.undefined => getMember freeDeliveryThresholds "guest"

/-- The comparison `discountedSubtotal > threshold`; a threshold that is not a number converts
to `NaN`, and every comparison with `NaN` is false. -/
def exceeds (discountedSubtotal : Int) : Member Int → Bool
  | Member.own t => decide (discountedSubtotal > t)
  | _ => false

/-- Body of the third loop: the zone fee accrues once per item. -/
def zoneStep (zone : String) (fee : Int) (_item : OrderItem) : Int :=
  if zone = "local" then fee + 399
  else if zone = "outer" then fee + 699
  else fee

/-- The value of `discountedSubtotal` when `deliveryFee` reaches the threshold test. -/
def discountedSubtotal (items : List OrderItem) (tier : Option String) : Int :=
  items.foldl subtotalStep 0 - items.foldl (volumeStep (tierDiscountsOf tier)) 0

/-- The expression `delivery || order.delivery || { zone: 'local', rush: false, distanceKm: 1 }`
that opens both `deliveryFee` and `tax`. -/
def deliveryInfoOf (order : Order) (delivery : Option DeliveryInfo) : DeliveryInfo :=
  delivery.getD (order.delivery.getD defaultDelivery)

/-- The expression `profile || order.customer || { tier: 'guest' }`. -/
def customerOf (order : Order) (profile : Option CustomerProfile) : CustomerProfile :=
  profile.getD (order.customer.getD defaultCustomer)

/-- The function `deliveryFee(order, delivery, profile)` of `delivery.js`. -/
def deliveryFee (order : Order) (delivery : Option DeliveryInfo)
    (profile : Option CustomerProfile) : Int :=
  let deliveryInfo := deliveryInfoOf order delivery
  let customer := customerOf order profile
  if exceeds (discountedSubtotal order.items customer.tier) (thresholdOf customer.tier) = true then
    if deliveryInfo.rush = true then 299 else 0
  else
    let fee := order.items.foldl (zoneStep deliveryInfo.zone) 0
    if deliveryInfo.rush = true then fee + 299 else fee

/-! ## tax.js -/

/-- Loop state of `tax`: the variables `hasHotItems` and `totalTax`. -/
structure TaxState where
  hasHotItems : Bool
  totalTax : Int

/-- Body of the loop of `tax`. -/
def taxStep (lookup : String → ℚ) (st : TaxState) (item : OrderItem) : TaxState :=
  let itemTotal := item.unitPriceCents * item.qty
  if item.kind = "hot" then
    let taxRate := lookup item.kind
    let itemTax := ⌊(itemTotal : ℚ) * taxRate⌋
    { hasHotItems := true, totalTax := st.totalTax + itemTax }
  else
    st

/-- The function `tax(order, delivery)` of `tax.js`, with `TaxAPI.lookup` as a parameter. -/
def tax (lookup : String → ℚ) (order : Order) (delivery : Option DeliveryInfo) : Int :=
  let _deliveryInfo := deliveryInfoOf order delivery
  (order.items.foldl (taxStep lookup) { hasHotItems := false, totalTax := 0 }).totalTax

/-- Body of the loop of `tax` with the double-precision expression
`Math.floor(itemTotal * taxRate)` left as the operation `floorOfProduct` on an integer item
total and a rate of any number type: nothing is assumed about how the product is rounded. -/
def taxStepWith {ρ : Type} (floorOfProduct : Int → ρ → Int) (lookup : String → ρ)
    (st : TaxState) (item : OrderItem) : TaxState :=
  let itemTotal := item.unitPriceCents * item.qty
  if item.kind = "hot" then
    let taxRate := lookup item.kind
    let itemTax := floorOfProduct itemTotal taxRate
    { hasHotItems := true, totalTax := st.totalTax + itemTax }
  else
    st

/-- The function `tax(order, delivery)` of `tax.js` over an arbitrary `floorOfProduct`; `tax`
is its instance at the exact floor of the exact product. -/
def taxWith {ρ : Type} (floorOfProduct : Int → ρ → Int) (lookup : String → ρ) (order : Order)
    (delivery : Option DeliveryInfo) : Int :=
  let _deliveryInfo := deliveryInfoOf order delivery
  (order.items.foldl (taxStepWith floorOfProduct lookup)
    { hasHotItems := false, totalTax := 0 }).totalTax

/-- The exact reading of `Math.floor(itemTotal * taxRate)`: the floor of the rational
product. -/
def exactFloorOfProduct (itemTotal : Int) (taxRate : ℚ) : Int :=
  ⌊(itemTotal : ℚ) * taxRate⌋

/-! ## total.js -/

/-- The expression `order.coupon || null`: a missing coupon and the empty string are falsy. -/
def orderCouponOrNull (order : Order) : Option String :=
  match order.coupon with
  | some c => if c = "" then none else some c
  | none => none

/-- The profile `total` hands to the stages. -/
def resolveProfile (order : Order) (context : Option Context) : CustomerProfile :=
  ((context.bind fun ctx => ctx.profile).getD (order.customer.getD defaultCustomer))

/-- The delivery information `total` hands to the stages. -/
def resolveDelivery (order : Order) (context : Option Context) : DeliveryInfo :=
  ((context.bind fun ctx => ctx.delivery).getD (order.delivery.getD defaultDelivery))

/-- The coupon `total` hands to `discounts`: `null` (`none`) or a code. -/
def resolveCoupon (order : Order) (context : Option Context) : Option String :=
  match context.bind fun ctx => ctx.coupon with
  | some c => c
  | none => orderCouponOrNull order

/-- The function `total(order, context)` of `total.js`, with `subtotal`, `discounts` and
`TaxAPI.lookup` as parameters. -/
def total (subtotal : Order → Int) (discounts : Order → CustomerProfile → Option String → Int)
    (lookup : String → ℚ) (order : Order) (context : Option Context) : Int :=
  let profile := resolveProfile order context
  let delivery := resolveDelivery order context
  let coupon := resolveCoupon order context
  let orderSubtotal := subtotal order
  let orderDiscounts := discounts order profile coupon
  let orderDelivery := deliveryFee order (some delivery) (some profile)
  let orderTax := tax lookup order (some delivery)
  let orderTotal := orderSubtotal - orderDiscounts + orderDelivery + orderTax
  max 0 orderTotal

/-! ## The claims' own vocabulary -/

/-- The tier's 12-pack volume rate as the specification tabulates it: guest 5%, regular 8%,
vip 5%; any other tier is read as guest. -/
def specRate12 (tier : Option String) : ℚ :=
  if tier = some "regular" then 0.08 else 0.05

/-- The tier's 24-pack volume rate as the specification tabulates it: guest 10%, regular 12%,
vip 10%; any other tier is read as guest. -/
def specRate24 (tier : Option String) : ℚ :=
  if tier = some "regular" then 0.12 else 0.10

/-- The tier's free-delivery threshold as the specification tabulates it: guest 5000,
regular 4000, vip 3000; any other tier is read as guest. -/
def specThreshold (tier : Option String) : Int :=
  if tier = some "regular" then 4000 else if tier = some "vip" then 3000 else 5000

/-- The specification's volume discount of one item. -/
def specVolumeDiscount (tier : Option String) (item : OrderItem) : Int :=
  if item.qty ≥ 24 then ⌊((item.unitPriceCents * item.qty : Int) : ℚ) * specRate24 tier⌋
  else if item.qty ≥ 12 then ⌊((item.unitPriceCents * item.qty : Int) : ℚ) * specRate12 tier⌋
  else 0

/-- The specification's discounted subtotal: item totals minus volume discounts. -/
def specDiscountedSubtotal (tier : Option String) (items : List OrderItem) : Int :=
  (items.map fun item => item.unitPriceCents * item.qty).sum
    - (items.map (specVolumeDiscount tier)).sum

/-- The specification's zone fee per item. -/
def specZoneFee (zone : String) : Int :=
  if zone = "local" then 399 else if zone = "outer" then 699 else 0

/-- The specification's rush surcharge. -/
def specRushFee (rush : Bool) : Int :=
  if rush = true then 299 else 0

/-- The tier is one of the three the data model lists. -/
def recognizedTier (tier : Option String) : Prop :=
  tier = some "guest" ∨ tier = some "regular" ∨ tier = some "vip"

instance (tier : Option String) : Decidable (recognizedTier tier) := by
  unfold recognizedTier; infer_instance

/-- The tier, read as a property key, names a member inherited from `Object.prototype`. -/
def inheritedTier (tier : Option String) : Prop :=
  propertyKey tier ∈ objectPrototypeKeys

instance (tier : Option String) : Decidable (inheritedTier tier) := by
  unfold inheritedTier; infer_instance

/-- The specification's three-level resolution of one field: the value the context supplies,
else the value the order supplies, else the hard-coded default. -/
def firstSupplied {α : Type} (fromContext fromOrder : Option α) (hardDefault : α) : α :=
  match fromContext with
  | some v => v
  | none =>
    match fromOrder with
    | some v => v
    | none => hardDefault

/-! ## Sample data -/

/-- An item with the given kind, quantity and unit price, without add-ons. -/
def mkItem (kind : String) (qty price : Int) : OrderItem :=
  { sku := "P6-POTATO", kind := kind, title := "", filling := "potato", qty := qty,
    unitPriceCents := price, addOns := [] }

/-- An order that carries only items. -/
def mkOrder (items : List OrderItem) : Order :=
  { id := "o", items := items, delivery := none, customer := none, coupon := none }

/-- A rate lookup answering 0.08 for hot items and 0 for every other kind. -/
def hotRate08 (kind : String) : ℚ :=
  if kind = "hot" then 0.08 else 0

/-! ## Loops as sums -/

theorem foldl_subtotalStep (items : List OrderItem) (a : Int) :
    items.foldl subtotalStep a = a + (items.map fun i => i.unitPriceCents * i.qty).sum := by
  induction items generalizing a with
  | nil => simp
  | cons x xs ih => simp [ih, subtotalStep, add_assoc]

theorem volumeStep_acc (td : Member PackRates) (a : Int) (item : OrderItem) :
    volumeStep td a item = a + volumeStep td 0 item := by
  unfold volumeStep
  split_ifs <;> simp

theorem foldl_volumeStep (td : Member PackRates) (items : List OrderItem) (a : Int) :
    items.foldl (volumeStep td) a = a + (items.map (volumeStep td 0)).sum := by
  induction items generalizing a with
  | nil => simp
  | cons x xs ih =>
    simp only [List.foldl_cons, List.map_cons, List.sum_cons]
    rw [ih, volumeStep_acc td a x, add_assoc]

theorem foldl_zoneStep (zone : String) (items : List OrderItem) (a : Int) :
    items.foldl (zoneStep zone) a = a + specZoneFee zone * items.length := by
  induction items generalizing a with
  | nil => simp
  | cons x xs ih =>
    simp only [List.foldl_cons, List.length_cons, ih]
    unfold zoneStep specZoneFee
    split_ifs <;> push_cast <;> ring

theorem foldl_taxStep (lookup : String → ℚ) (items : List OrderItem) (st : TaxState) :
    (items.foldl (taxStep lookup) st).totalTax
      = st.totalTax + ((items.filter fun i => i.kind = "hot").map fun i =>
          ⌊((i.unitPriceCents * i.qty : Int) : ℚ) * lookup "hot"⌋).sum := by
  induction items generalizing st with
  | nil => simp
  | cons x xs ih =>
    simp only [List.foldl_cons, ih]
    by_cases hk : x.kind = "hot"
    · simp [taxStep, hk, add_assoc]
    · simp [taxStep, hk]

/-! ## Tier tables -/

theorem tierDiscountsOf_of_not_inherited (tier : Option String) (h : ¬ inheritedTier tier) :
    tierDiscountsOf tier
      = Member.own { pack12 := specRate12 tier, pack24 := specRate24 tier } := by
  unfold inheritedTier at h
  cases tier with
  | none => simp [tierDiscountsOf, getMember, propertyKey, volumeDiscounts, List.lookup,
      objectPrototypeKeys, specRate12, specRate24]
  | some s =>
    simp only [propertyKey] at h
    by_cases hg : s = "guest"
    · subst hg
      simp [tierDiscountsOf, getMember, propertyKey, volumeDiscounts, List.lookup,
        specRate12, specRate24]
    · by_cases hr : s = "regular"
      · subst hr
        simp [tierDiscountsOf, getMember, propertyKey, volumeDiscounts, List.lookup,
          specRate12, specRate24]
      · by_cases hv : s = "vip"
        · subst hv
          simp [tierDiscountsOf, getMember, propertyKey, volumeDiscounts, List.lookup,
            specRate12, specRate24]
        · have hg' : (s == "guest") = false := by simpa using hg
          have hr' : (s == "regular") = false := by simpa using hr
          have hv' : (s == "vip") = false := by simpa using hv
          simp [tierDiscountsOf, getMember, propertyKey, volumeDiscounts, List.lookup,
            specRate12, specRate24, hg, hr, hv, hg', hr', hv', h]

theorem tierDiscountsOf_of_inherited (tier : Option String) (h : inheritedTier tier) :
    tierDiscountsOf tier = Member.inherited := by
  unfold inheritedTier at h
  have hg : propertyKey tier ≠ "guest" := by rintro e; rw [e] at h; revert h; decide
  have hr : propertyKey tier ≠ "regular" := by rintro e; rw [e] at h; revert h; decide
  have hv : propertyKey tier ≠ "vip" := by rintro e; rw [e] at h; revert h; decide
  have hg' : (propertyKey tier == "guest") = false := by simpa using hg
  have hr' : (propertyKey tier == "regular") = false := by simpa using hr
  have hv' : (propertyKey tier == "vip") = false := by simpa using hv
  simp [tierDiscountsOf, getMember, volumeDiscounts, List.lookup, hg', hr', hv', h]

theorem thresholdOf_of_not_inherited (tier : Option String) (h : ¬ inheritedTier tier) :
    thresholdOf tier = Member.own (specThreshold tier) := by
  unfold inheritedTier at h
  cases tier with
  | none => simp [thresholdOf, getMember, propertyKey, freeDeliveryThresholds, List.lookup,
      objectPrototypeKeys, specThreshold]
  | some s =>
    simp only [propertyKey] at h
    by_cases hg : s = "guest"
    · subst hg
      simp [thresholdOf, getMember, propertyKey, freeDeliveryThresholds, List.lookup,
        specThreshold]
    · by_cases hr : s = "regular"
      · subst hr
        simp [thresholdOf, getMember, propertyKey, freeDeliveryThresholds, List.lookup,
          specThreshold]
      · by_cases hv : s = "vip"
        · subst hv
          simp [thresholdOf, getMember, propertyKey, freeDeliveryThresholds, List.lookup,
            specThreshold]
        · have hg' : (s == "guest") = false := by simpa using hg
          have hr' : (s == "regular") = false := by simpa using hr
          have hv' : (s == "vip") = false := by simpa using hv
          simp [thresholdOf, getMember, propertyKey, freeDeliveryThresholds, List.lookup,
            specThreshold, hg, hr, hv, hg', hr', hv', h]

theorem thresholdOf_of_inherited (tier : Option String) (h : inheritedTier tier) :
    thresholdOf tier = Member.inherited := by
  unfold inheritedTier at h
  have hg : propertyKey tier ≠ "guest" := by rintro e; rw [e] at h; revert h; decide
  have hr : propertyKey tier ≠ "regular" := by rintro e; rw [e] at h; revert h; decide
  have hv : propertyKey tier ≠ "vip" := by rintro e; rw [e] at h; revert h; decide
  have hg' : (propertyKey tier == "guest") = false := by simpa using hg
  have hr' : (propertyKey tier == "regular") = false := by simpa using hr
  have hv' : (propertyKey tier == "vip") = false := by simpa using hv
  simp [thresholdOf, getMember, freeDeliveryThresholds, List.lookup, hg', hr', hv', h]

theorem not_inherited_of_recognized (tier : Option String) (h : recognizedTier tier) :
    ¬ inheritedTier tier := by
  rcases h with h | h | h <;> subst h <;> decide

theorem specRate12_ne_zero (tier : Option String) : specRate12 tier ≠ 0 := by
  unfold specRate12; split_ifs <;> norm_num

theorem specRate24_ne_zero (tier : Option String) : specRate24 tier ≠ 0 := by
  unfold specRate24; split_ifs <;> norm_num

theorem volumeStep_own_spec (tier : Option String) (item : OrderItem) :
    volumeStep (Member.own { pack12 := specRate12 tier, pack24 := specRate24 tier }) 0 item
      = specVolumeDiscount tier item := by
  simp [volumeStep, specVolumeDiscount, rate12, rate24, truthyRate, specRate12_ne_zero,
    specRate24_ne_zero]

theorem volumeStep_inherited (item : OrderItem) :
    volumeStep Member.inherited 0 item = 0 := by
  simp [volumeStep, rate12, rate24, truthyRate]

theorem discountedSubtotal_of_not_inherited (items : List OrderItem) (tier : Option String)
    (h : ¬ inheritedTier tier) :
    discountedSubtotal items tier = specDiscountedSubtotal tier items := by
  unfold discountedSubtotal specDiscountedSubtotal
  rw [foldl_subtotalStep, foldl_volumeStep, tierDiscountsOf_of_not_inherited tier h]
  simp only [zero_add]
  congr 2
  exact List.map_congr_left fun item _ => volumeStep_own_spec tier item

/-- The fee `deliveryFee` computes when the tier names no inherited member: the
specification's two branches. -/
theorem deliveryFee_of_not_inherited (order : Order) (d : DeliveryInfo) (p : CustomerProfile)
    (h : ¬ inheritedTier p.tier) :
    deliveryFee order (some d) (some p)
      = if specDiscountedSubtotal p.tier order.items > specThreshold p.tier
        then specRushFee d.rush
        else specZoneFee d.zone * order.items.length + specRushFee d.rush := by
  unfold deliveryFee
  simp only [deliveryInfoOf, customerOf, Option.getD_some]
  rw [discountedSubtotal_of_not_inherited _ _ h, thresholdOf_of_not_inherited _ h,
    foldl_zoneStep]
  simp only [exceeds, decide_eq_true_eq, specRushFee, zero_add]
  by_cases hr : d.rush = true <;> simp [hr]

/-- The fee `deliveryFee` computes when the tier names an inherited member: the threshold
test fails and the zone fee is always charged. -/
theorem deliveryFee_of_inherited (order : Order) (d : DeliveryInfo) (p : CustomerProfile)
    (h : inheritedTier p.tier) :
    deliveryFee order (some d) (some p)
      = specZoneFee d.zone * order.items.length + specRushFee d.rush := by
  unfold deliveryFee
  simp only [deliveryInfoOf, customerOf, Option.getD_some]
  rw [thresholdOf_of_inherited _ h, foldl_zoneStep]
  by_cases hr : d.rush = true <;> simp [exceeds, specRushFee, hr]

/-! ## What the loops read of an item -/

theorem foldl_eq_of_map_eq {α β γ : Type} (f : β → α → β) (π : α → γ) (g : β → γ → β)
    (hf : ∀ b a, f b a = g b (π a)) (l₁ l₂ : List α) (h : l₁.map π = l₂.map π) (b : β) :
    l₁.foldl f b = l₂.foldl f b := by
  have key : ∀ l : List α, l.foldl f b = (l.map π).foldl g b := by
    intro l
    induction l generalizing b with
    | nil => rfl
    | cons x xs ih => simp only [List.foldl_cons, List.map_cons, hf, ih]
  rw [key l₁, key l₂, h]

theorem sum_pos_iff_of_nonneg (l : List Int) (h : ∀ x ∈ l, 0 ≤ x) :
    0 < l.sum ↔ ∃ x ∈ l, 0 < x := by
  induction l with
  | nil => simp
  | cons a as ih =>
    have ha : 0 ≤ a := h a (List.mem_cons_self _ _)
    have has : ∀ x ∈ as, 0 ≤ x := fun x hx => h x (List.mem_cons_of_mem _ hx)
    have hsum : 0 ≤ as.sum := List.sum_nonneg has
    simp only [List.sum_cons, List.mem_cons, exists_eq_or_imp]
    rw [← ih has]
    constructor
    · intro hpos
      by_contra hcon
      push_neg at hcon
      omega
    · rintro (h1 | h2) <;> omega

theorem floor_rate08_pos_iff (t : Int) : 0 < ⌊(t : ℚ) * 0.08⌋ ↔ 13 ≤ t := by
  rw [show (0 : Int) < ⌊(t : ℚ) * 0.08⌋ ↔ (0 : Int) + 1 ≤ ⌊(t : ℚ) * 0.08⌋ from Iff.rfl,
    Int.le_floor]
  constructor
  · intro h
    have h1 : ((0 : Int) + 1 : Int) * 25 ≤ (t : ℚ) * 2 := by push_cast; linarith
    have h2 : (25 : Int) ≤ t * 2 := by exact_mod_cast h1
    omega
  · intro h
    have h1 : (13 : ℚ) ≤ (t : ℚ) := by exact_mod_cast h
    push_cast
    linarith

/-! ## Permuted items -/

theorem sum_map_perm (f : OrderItem → Int) (l₁ l₂ : List OrderItem) (h : l₁.Perm l₂) :
    (l₁.map f).sum = (l₂.map f).sum :=
  (h.map f).sum_eq

theorem foldl_subtotalStep_perm (l₁ l₂ : List OrderItem) (h : l₁.Perm l₂) :
    l₁.foldl subtotalStep 0 = l₂.foldl subtotalStep 0 := by
  rw [foldl_subtotalStep, foldl_subtotalStep, sum_map_perm _ l₁ l₂ h]

theorem foldl_volumeStep_perm (td : Member PackRates) (l₁ l₂ : List OrderItem)
    (h : l₁.Perm l₂) :
    l₁.foldl (volumeStep td) 0 = l₂.foldl (volumeStep td) 0 := by
  rw [foldl_volumeStep, foldl_volumeStep, sum_map_perm _ l₁ l₂ h]

theorem foldl_zoneStep_perm (zone : String) (l₁ l₂ : List OrderItem) (h : l₁.Perm l₂) :
    l₁.foldl (zoneStep zone) 0 = l₂.foldl (zoneStep zone) 0 := by
  rw [foldl_zoneStep, foldl_zoneStep, h.length_eq]

theorem foldl_taxStep_perm (lookup : String → ℚ) (l₁ l₂ : List OrderItem) (h : l₁.Perm l₂)
    (st : TaxState) :
    (l₁.foldl (taxStep lookup) st).totalTax = (l₂.foldl (taxStep lookup) st).totalTax := by
  rw [foldl_taxStep, foldl_taxStep,
    sum_map_perm _ _ _ (h.filter fun i => decide (i.kind = "hot"))]

/-! ## Volume discounts across tiers -/

theorem itemTotal_nonneg (item : OrderItem)
    (h : 0 ≤ item.unitPriceCents ∧ 1 ≤ item.qty) : 0 ≤ item.unitPriceCents * item.qty :=
  mul_nonneg h.1 (le_trans zero_le_one h.2)

theorem specVolumeDiscount_vip (item : OrderItem) :
    specVolumeDiscount (some "vip") item = specVolumeDiscount (some "guest") item := by
  simp [specVolumeDiscount, specRate12, specRate24]

theorem specRate12_guest : specRate12 (some "guest") = 5 / 100 := by
  have h : (some "guest" : Option String) ≠ some "regular" := by decide
  rw [specRate12, if_neg h]
  norm_num

theorem specRate24_guest : specRate24 (some "guest") = 10 / 100 := by
  have h : (some "guest" : Option String) ≠ some "regular" := by decide
  rw [specRate24, if_neg h]
  norm_num

theorem specRate12_regular : specRate12 (some "regular") = 8 / 100 := by
  rw [specRate12, if_pos rfl]
  norm_num

theorem specRate24_regular : specRate24 (some "regular") = 12 / 100 := by
  rw [specRate24, if_pos rfl]
  norm_num

theorem specVolumeDiscount_guest_nonneg (item : OrderItem)
    (ht : 0 ≤ item.unitPriceCents * item.qty) :
    0 ≤ specVolumeDiscount (some "guest") item := by
  have hq : (0 : ℚ) ≤ ((item.unitPriceCents * item.qty : Int) : ℚ) := by exact_mod_cast ht
  unfold specVolumeDiscount
  split_ifs
  · exact Int.floor_nonneg.mpr (mul_nonneg hq (by rw [specRate24_guest]; norm_num))
  · exact Int.floor_nonneg.mpr (mul_nonneg hq (by rw [specRate12_guest]; norm_num))
  · exact le_refl _

theorem specVolumeDiscount_guest_le_regular (item : OrderItem)
    (ht : 0 ≤ item.unitPriceCents * item.qty) :
    specVolumeDiscount (some "guest") item ≤ specVolumeDiscount (some "regular") item := by
  have hq : (0 : ℚ) ≤ ((item.unitPriceCents * item.qty : Int) : ℚ) := by exact_mod_cast ht
  unfold specVolumeDiscount
  split_ifs
  · exact Int.floor_le_floor
      (mul_le_mul_of_nonneg_left (by rw [specRate24_guest, specRate24_regular]; norm_num) hq)
  · exact Int.floor_le_floor
      (mul_le_mul_of_nonneg_left (by rw [specRate12_guest, specRate12_regular]; norm_num) hq)
  · exact le_refl _

theorem specVolumeDiscount_regular_le (item : OrderItem)
    (ht : 0 ≤ item.unitPriceCents * item.qty) :
    100 * specVolumeDiscount (some "regular") item
      ≤ 12 * (item.unitPriceCents * item.qty) := by
  have hq : (0 : ℚ) ≤ ((item.unitPriceCents * item.qty : Int) : ℚ) := by exact_mod_cast ht
  unfold specVolumeDiscount
  split_ifs
  · have hfl := Int.floor_le (((item.unitPriceCents * item.qty : Int) : ℚ)
      * specRate24 (some "regular"))
    have hr := specRate24_regular
    rw [hr] at hfl ⊢
    have hcast : ((100 * ⌊((item.unitPriceCents * item.qty : Int) : ℚ) * (12 / 100)⌋ : Int) : ℚ)
        ≤ ((12 * (item.unitPriceCents * item.qty) : Int) : ℚ) := by
      push_cast at hfl ⊢
      linarith
    exact_mod_cast hcast
  · have hfl := Int.floor_le (((item.unitPriceCents * item.qty : Int) : ℚ)
      * specRate12 (some "regular"))
    have hr := specRate12_regular
    rw [hr] at hfl ⊢
    have hcast : ((100 * ⌊((item.unitPriceCents * item.qty : Int) : ℚ) * (8 / 100)⌋ : Int) : ℚ)
        ≤ ((12 * (item.unitPriceCents * item.qty) : Int) : ℚ) := by
      push_cast at hfl hq ⊢
      linarith
    exact_mod_cast hcast
  · omega

theorem sum_map_le_sum_map (f g : OrderItem → Int) (items : List OrderItem)
    (h : ∀ item ∈ items, f item ≤ g item) : (items.map f).sum ≤ (items.map g).sum := by
  induction items with
  | nil => simp
  | cons x xs ih =>
    have hx := h x (List.mem_cons_self _ _)
    have hxs := ih fun item hmem => h item (List.mem_cons_of_mem _ hmem)
    simp only [List.map_cons, List.sum_cons]
    omega

theorem sum_map_scaled_le (f g : OrderItem → Int) (a b : Int) (items : List OrderItem)
    (h : ∀ item ∈ items, a * f item ≤ b * g item) :
    a * (items.map f).sum ≤ b * (items.map g).sum := by
  induction items with
  | nil => simp
  | cons x xs ih =>
    have hx := h x (List.mem_cons_self _ _)
    have hxs := ih fun item hmem => h item (List.mem_cons_of_mem _ hmem)
    simp only [List.map_cons, List.sum_cons, mul_add]
    omega

/-! ## The tax loop over any rounding of the product -/

theorem foldl_taxStepWith {ρ : Type} (floorOfProduct : Int → ρ → Int) (lookup : String → ρ)
    (items : List OrderItem) (st : TaxState) :
    (items.foldl (taxStepWith floorOfProduct lookup) st).totalTax
      = st.totalTax + ((items.filter fun i => i.kind = "hot").map fun i =>
          floorOfProduct (i.unitPriceCents * i.qty) (lookup "hot")).sum := by
  induction items generalizing st with
  | nil => simp
  | cons x xs ih =>
    simp only [List.foldl_cons, ih]
    by_cases hk : x.kind = "hot"
    · simp [taxStepWith, hk, add_assoc]
    · simp [taxStepWith, hk]

theorem tax_eq_taxWith_exact (lookup : String → ℚ) (order : Order)
    (delivery : Option DeliveryInfo) :
    tax lookup order delivery = taxWith exactFloorOfProduct lookup order delivery :=
  rfl

/-! ## Claims -/

/-- C1: for every order and every context, `total` is `max 0 (s - d + f + t)`, where `s` is
the subtotal, `d` the discounts, `f` the delivery fee and `t` the tax, each taken at the
profile, delivery and coupon resolved from the context first, the order second and the
defaults last; `subtotal`, `discounts` and the rate lookup are arbitrary, and a coupon code
is a non-empty string. In particular `total` is never negative, for every order. -/
theorem total_eq_clamped_sum (subtotal : Order → Int)
    (discounts : Order → CustomerProfile → Option String → Int) (lookup : String → ℚ)
    (order : Order) (context : Option Context) :
    (order.coupon ≠ some "" →
      total subtotal discounts lookup order context
        = max 0 (subtotal order
            - discounts order
                (firstSupplied (context.bind fun ctx => ctx.profile) order.customer
                  { tier := some "guest" })
                (firstSupplied (context.bind fun ctx => ctx.coupon) (order.coupon.map some)
                  none)
            + deliveryFee order
                (some (firstSupplied (context.bind fun ctx => ctx.delivery) order.delivery
                  { zone := "local", rush := false, distanceKm := 1 }))
                (some (firstSupplied (context.bind fun ctx => ctx.profile) order.customer
                  { tier := some "guest" }))
            + tax lookup order
                (some (firstSupplied (context.bind fun ctx => ctx.delivery) order.delivery
                  { zone := "local", rush := false, distanceKm := 1 }))))
      ∧ 0 ≤ total subtotal discounts lookup order context := by
  constructor
  · intro hcoupon
    have hc : orderCouponOrNull order = order.coupon := by
      unfold orderCouponOrNull
      cases hoc : order.coupon with
      | none => rfl
      | some c =>
        have hne : c ≠ "" := fun e => hcoupon (by rw [hoc, e])
        simp [hne]
    unfold total resolveProfile resolveDelivery resolveCoupon
    rw [hc]
    cases hp : (context.bind fun ctx => ctx.profile) <;>
      cases hd : (context.bind fun ctx => ctx.delivery) <;>
      cases hk : (context.bind fun ctx => ctx.coupon) <;>
      cases order.customer <;> cases order.delivery <;> cases order.coupon <;> rfl
  · unfold total
    exact le_max_left _ _

theorem total_eq_clamped_sum_witness :
    ({ id := "c", items := [mkItem "frozen" 6 500, mkItem "frozen" 6 400],
       delivery := some { zone := "outer", rush := true, distanceKm := 12 },
       customer := some { tier := some "vip" }, coupon := some "FIRST10" } : Order).coupon
        ≠ some ""
      ∧ total (fun _ => 5400)
          (fun _ profile coupon =>
            (if profile.tier = some "regular" then 100 else 0)
              + (if coupon = some "FIRST10" then 540 else 0))
          hotRate08
          { id := "c", items := [mkItem "frozen" 6 500, mkItem "frozen" 6 400],
            delivery := some { zone := "outer", rush := true, distanceKm := 12 },
            customer := some { tier := some "vip" }, coupon := some "FIRST10" }
          (some { profile := some { tier := some "regular" }, delivery := none,
                  coupon := none })
        = max 0 (5400 - (100 + 540) + (299 : Int) + 0) :=
  ⟨by decide,
    ((total_eq_clamped_sum (fun _ => 5400)
      (fun _ profile coupon =>
        (if profile.tier = some "regular" then 100 else 0)
          + (if coupon = some "FIRST10" then 540 else 0))
      hotRate08
      { id := "c", items := [mkItem "frozen" 6 500, mkItem "frozen" 6 400],
        delivery := some { zone := "outer", rush := true, distanceKm := 12 },
        customer := some { tier := some "vip" }, coupon := some "FIRST10" }
      (some { profile := some { tier := some "regular" }, delivery := none,
              coupon := none })).1 (by decide)).trans (by decide)⟩

/-- C2: for a guest, regular or vip profile and an order with non-negative prices and
quantities of at least 1, if the discounted subtotal (item totals minus the tier's volume
discounts) is strictly above the tier's free-delivery threshold, `deliveryFee` is 299 with
rush and 0 without, whatever the zone and the number of items. -/
theorem deliveryFee_free_above_threshold (order : Order) (d : DeliveryInfo)
    (p : CustomerProfile) (htier : recognizedTier p.tier)
    (_hvalid : ∀ item ∈ order.items, 0 ≤ item.unitPriceCents ∧ 1 ≤ item.qty)
    (hD : specDiscountedSubtotal p.tier order.items > specThreshold p.tier) :
    deliveryFee order (some d) (some p) = if d.rush = true then 299 else 0 := by
  rw [deliveryFee_of_not_inherited order d p (not_inherited_of_recognized _ htier), if_pos hD]
  rfl

theorem deliveryFee_free_above_threshold_witness :
    recognizedTier (some "guest")
      ∧ (∀ item ∈ (mkOrder [mkItem "hot" 12 1000]).items,
          0 ≤ item.unitPriceCents ∧ 1 ≤ item.qty)
      ∧ specDiscountedSubtotal (some "guest") (mkOrder [mkItem "hot" 12 1000]).items
          > specThreshold (some "guest")
      ∧ deliveryFee (mkOrder [mkItem "hot" 12 1000])
          (some { zone := "outer", rush := true, distanceKm := 12 })
          (some { tier := some "guest" }) = 299 :=
  have hv : ∀ item ∈ (mkOrder [mkItem "hot" 12 1000]).items,
      0 ≤ item.unitPriceCents ∧ 1 ≤ item.qty := by
    simp [mkOrder, mkItem]
  have hD : specDiscountedSubtotal (some "guest") (mkOrder [mkItem "hot" 12 1000]).items
      > specThreshold (some "guest") := by
    simp [specDiscountedSubtotal, specVolumeDiscount, specRate12, specThreshold, mkOrder, mkItem]
    norm_num
  ⟨by decide, hv, hD,
    deliveryFee_free_above_threshold (mkOrder [mkItem "hot" 12 1000])
      { zone := "outer", rush := true, distanceKm := 12 } { tier := some "guest" }
      (by decide) hv hD⟩

/-- C3: for every order, delivery info and profile whose discounted subtotal is at most the
tier's free-delivery threshold, `deliveryFee` is `z * (number of items) + (299 if rush)`,
with `z` 399 for zone local, 699 for outer and 0 for any other zone: the zone fee is charged
once per item. -/
theorem deliveryFee_per_item_zone_fee (order : Order) (d : DeliveryInfo) (p : CustomerProfile)
    (hD : specDiscountedSubtotal p.tier order.items ≤ specThreshold p.tier) :
    deliveryFee order (some d) (some p)
      = (if d.zone = "local" then 399 else if d.zone = "outer" then 699 else 0)
          * (order.items.length : Int)
        + (if d.rush = true then 299 else 0) := by
  by_cases h : inheritedTier p.tier
  · exact deliveryFee_of_inherited order d p h
  · rw [deliveryFee_of_not_inherited order d p h, if_neg (not_lt.mpr hD)]
    rfl

theorem deliveryFee_per_item_zone_fee_witness :
    specDiscountedSubtotal (some "vip")
        (mkOrder [mkItem "frozen" 6 200, mkItem "hot" 6 250]).items ≤ specThreshold (some "vip")
      ∧ deliveryFee (mkOrder [mkItem "frozen" 6 200, mkItem "hot" 6 250])
          (some { zone := "outer", rush := true, distanceKm := 12 })
          (some { tier := some "vip" }) = 699 * 2 + 299 :=
  ⟨by decide,
    deliveryFee_per_item_zone_fee (mkOrder [mkItem "frozen" 6 200, mkItem "hot" 6 250])
      { zone := "outer", rush := true, distanceKm := 12 } { tier := some "vip" } (by decide)⟩

/-- C4: for each of the tiers guest, regular and vip, an order whose discounted subtotal
equals the tier's free-delivery threshold is charged the per-item zone fee (no free
delivery), and an order whose discounted subtotal is one cent above it is delivered free
(0 without rush, 299 with rush). For a guest, one item of quantity 1 at 5000 cents, zone
local, no rush costs 399; at 5001 cents it costs 0. -/
theorem deliveryFee_threshold_boundary (order : Order) (d : DeliveryInfo)
    (p : CustomerProfile) (htier : recognizedTier p.tier) :
    (specDiscountedSubtotal p.tier order.items = specThreshold p.tier →
        deliveryFee order (some d) (some p)
          = (if d.zone = "local" then 399 else if d.zone = "outer" then 699 else 0)
              * (order.items.length : Int)
            + (if d.rush = true then 299 else 0))
      ∧ (specDiscountedSubtotal p.tier order.items = specThreshold p.tier + 1 →
        deliveryFee order (some d) (some p) = if d.rush = true then 299 else 0)
      ∧ deliveryFee (mkOrder [mkItem "hot" 1 5000])
          (some { zone := "local", rush := false, distanceKm := 1 })
          (some { tier := some "guest" }) = 399
      ∧ deliveryFee (mkOrder [mkItem "hot" 1 5001])
          (some { zone := "local", rush := false, distanceKm := 1 })
          (some { tier := some "guest" }) = 0 := by
  have hn := not_inherited_of_recognized _ htier
  refine ⟨fun hD => ?_, fun hD => ?_, by decide, by decide⟩
  · rw [deliveryFee_of_not_inherited order d p hn, if_neg (by rw [hD]; exact lt_irrefl _)]
    rfl
  · rw [deliveryFee_of_not_inherited order d p hn, if_pos (by rw [hD]; exact lt_add_one _)]
    rfl

theorem deliveryFee_threshold_boundary_witness :
    deliveryFee (mkOrder [mkItem "frozen" 6 500, mkItem "hot" 1 1000])
        (some { zone := "outer", rush := true, distanceKm := 3 })
        (some { tier := some "regular" }) = 699 * 2 + 299
      ∧ deliveryFee (mkOrder [mkItem "frozen" 6 500, mkItem "hot" 1 1001])
        (some { zone := "outer", rush := true, distanceKm := 3 })
        (some { tier := some "regular" }) = 299 :=
  ⟨(deliveryFee_threshold_boundary (mkOrder [mkItem "frozen" 6 500, mkItem "hot" 1 1000])
      { zone := "outer", rush := true, distanceKm := 3 } { tier := some "regular" }
      (by decide)).1 (by decide),
   (deliveryFee_threshold_boundary (mkOrder [mkItem "frozen" 6 500, mkItem "hot" 1 1001])
      { zone := "outer", rush := true, distanceKm := 3 } { tier := some "regular" }
      (by decide)).2.1 (by decide)⟩

/-- C5: for every order and every rate lookup, `tax` is the sum, over exactly the items of
kind hot, of `Math.floor(unitPriceCents * qty * lookup('hot'))`; items of any other kind
contribute nothing, and replacing the add-ons of the items leaves the tax unchanged. The
floored product is the operation the code applies to the integer item total and the rate,
whatever its rounding: the double-precision one of JavaScript as well as the exact one. -/
theorem tax_eq_sum_over_hot_items {ρ : Type} (floorOfProduct : Int → ρ → Int)
    (lookup : String → ρ) (order : Order) (delivery : Option DeliveryInfo) :
    taxWith floorOfProduct lookup order delivery
        = ((order.items.filter fun item => item.kind = "hot").map fun item =>
            floorOfProduct (item.unitPriceCents * item.qty) (lookup "hot")).sum
      ∧ ∀ addOns : OrderItem → List String,
          taxWith floorOfProduct lookup
              { order with items := order.items.map fun item =>
                  { item with addOns := addOns item } } delivery
            = taxWith floorOfProduct lookup order delivery := by
  constructor
  · unfold taxWith
    simp only [foldl_taxStepWith, zero_add]
  · intro addOns
    unfold taxWith
    have hread : (order.items.map fun item => { item with addOns := addOns item }).map
          (fun item => (item.kind, item.unitPriceCents, item.qty))
        = order.items.map (fun item => (item.kind, item.unitPriceCents, item.qty)) := by
      rw [List.map_map]
      rfl
    have hcongr := foldl_eq_of_map_eq (taxStepWith floorOfProduct lookup)
      (fun item => (item.kind, item.unitPriceCents, item.qty))
      (fun st (t : String × Int × Int) => if t.1 = "hot" then
        { hasHotItems := true,
          totalTax := st.totalTax + floorOfProduct (t.2.1 * t.2.2) (lookup t.1) }
        else st)
      (fun _ _ => rfl) _ _ hread { hasHotItems := false, totalTax := 0 }
    exact congrArg TaxState.totalTax hcongr

/-- C6: for every order in which every item is frozen, `tax` is 0, for every delivery info
and every rate lookup. -/
theorem tax_all_frozen_zero (lookup : String → ℚ) (order : Order)
    (delivery : Option DeliveryInfo)
    (hfrozen : ∀ item ∈ order.items, item.kind = "frozen") :
    tax lookup order delivery = 0 := by
  unfold tax
  rw [foldl_taxStep]
  have hnone : (order.items.filter fun item => item.kind = "hot") = [] := by
    rw [List.filter_eq_nil_iff]
    intro item hmem
    rw [hfrozen item hmem]
    decide
  simp [hnone]

theorem tax_all_frozen_zero_witness :
    (∀ item ∈ (mkOrder [mkItem "frozen" 6 500, mkItem "frozen" 24 3000]).items,
        item.kind = "frozen")
      ∧ tax hotRate08 (mkOrder [mkItem "frozen" 6 500, mkItem "frozen" 24 3000])
          (some { zone := "outer", rush := true, distanceKm := 12 }) = 0 :=
  have hf : ∀ item ∈ (mkOrder [mkItem "frozen" 6 500, mkItem "frozen" 24 3000]).items,
      item.kind = "frozen" := by
    simp [mkOrder, mkItem]
  ⟨hf, tax_all_frozen_zero hotRate08 _ _ hf⟩

/-- C7, as the claim states it, fails: an order of one hot item of quantity 1 at 12 cents has
only hot items, a positive price and a positive quantity, the lookup rate for hot is 0.08,
and its tax is `floor 0.96 = 0`. -/
theorem tax_all_hot_positive_counterexample :
    (∀ item ∈ (mkOrder [mkItem "hot" 1 12]).items,
        item.kind = "hot" ∧ 0 < item.unitPriceCents ∧ 0 < item.qty)
      ∧ hotRate08 "hot" = 0.08
      ∧ ¬ (0 < tax hotRate08 (mkOrder [mkItem "hot" 1 12]) none) := by
  refine ⟨by simp [mkOrder, mkItem], by simp [hotRate08], ?_⟩
  have h0 : tax hotRate08 (mkOrder [mkItem "hot" 1 12]) none = 0 := by
    unfold tax
    rw [foldl_taxStep]
    simp [mkOrder, mkItem, hotRate08]
    norm_num
  rw [h0]
  exact lt_irrefl _

/-- C7, amended: for every order in which every item is hot with a positive unit price and
a positive quantity, and a lookup rate of 0.08 for hot, `tax` is strictly positive exactly
when some item has `unitPriceCents * qty` of at least 13 cents. -/
theorem tax_all_hot_positive_iff (lookup : String → ℚ) (order : Order)
    (delivery : Option DeliveryInfo) (hrate : lookup "hot" = 0.08)
    (hhot : ∀ item ∈ order.items,
      item.kind = "hot" ∧ 0 < item.unitPriceCents ∧ 0 < item.qty) :
    0 < tax lookup order delivery
      ↔ ∃ item ∈ order.items, 13 ≤ item.unitPriceCents * item.qty := by
  unfold tax
  rw [foldl_taxStep, hrate]
  have hall : (order.items.filter fun item => item.kind = "hot") = order.items := by
    rw [List.filter_eq_self]
    intro item hmem
    simp [(hhot item hmem).1]
  simp only [hall, zero_add]
  rw [sum_pos_iff_of_nonneg]
  · simp only [List.mem_map, exists_exists_and_eq_and, floor_rate08_pos_iff]
  · intro x hx
    obtain ⟨item, hmem, rfl⟩ := List.mem_map.mp hx
    apply Int.floor_nonneg.mpr
    have hp := (hhot item hmem).2
    have : (0 : ℚ) ≤ ((item.unitPriceCents * item.qty : Int) : ℚ) := by
      exact_mod_cast (mul_pos hp.1 hp.2).le
    positivity

theorem tax_all_hot_positive_iff_witness :
    hotRate08 "hot" = 0.08
      ∧ (∀ item ∈ (mkOrder [mkItem "hot" 1 12, mkItem "hot" 6 500]).items,
          item.kind = "hot" ∧ 0 < item.unitPriceCents ∧ 0 < item.qty)
      ∧ 0 < tax hotRate08 (mkOrder [mkItem "hot" 1 12, mkItem "hot" 6 500]) none :=
  have hr : hotRate08 "hot" = 0.08 := by simp [hotRate08]
  have hh : ∀ item ∈ (mkOrder [mkItem "hot" 1 12, mkItem "hot" 6 500]).items,
      item.kind = "hot" ∧ 0 < item.unitPriceCents ∧ 0 < item.qty := by
    simp [mkOrder, mkItem]
  ⟨hr, hh, (tax_all_hot_positive_iff hotRate08 _ none hr hh).mpr
    ⟨mkItem "hot" 6 500, by simp [mkOrder], by decide⟩⟩

/-- C8: the delivery fee is not taxed. For every order and any two delivery arguments
(given or omitted), `tax` returns the same amount; and any order whose items carry the same
kind, quantity and unit price, in the same sequence, has the same tax under the same rate
lookup, whatever its delivery information. -/
theorem tax_independent_of_delivery (lookup : String → ℚ) (order : Order)
    (d1 d2 : Option DeliveryInfo) :
    tax lookup order d1 = tax lookup order d2
      ∧ ∀ order2 : Order,
          (order2.items.map fun item => (item.kind, item.qty, item.unitPriceCents))
              = (order.items.map fun item => (item.kind, item.qty, item.unitPriceCents)) →
          tax lookup order2 d2 = tax lookup order d1 := by
  refine ⟨rfl, fun order2 hread => ?_⟩
  unfold tax
  have hcongr := foldl_eq_of_map_eq (taxStep lookup)
    (fun item => (item.kind, item.qty, item.unitPriceCents))
    (fun st (t : String × Int × Int) => if t.1 = "hot" then
      { hasHotItems := true,
        totalTax := st.totalTax + ⌊((t.2.2 * t.2.1 : Int) : ℚ) * lookup t.1⌋ }
      else st)
    (fun _ _ => rfl) _ _ hread { hasHotItems := false, totalTax := 0 }
  exact congrArg TaxState.totalTax hcongr

theorem tax_independent_of_delivery_witness :
    tax hotRate08 (mkOrder [mkItem "hot" 12 1000]) none
        = tax hotRate08 (mkOrder [mkItem "hot" 12 1000])
            (some { zone := "outer", rush := true, distanceKm := 40 })
      ∧ tax hotRate08
          { id := "b",
            items := [{ sku := "P12-SAUER", kind := "hot", title := "t", filling := "mushroom",
                        qty := 12, unitPriceCents := 1000, addOns := ["bacon-bits"] }],
            delivery := some { zone := "outer", rush := true, distanceKm := 40 },
            customer := some { tier := some "vip" }, coupon := some "FIRST10" }
          (some { zone := "outer", rush := true, distanceKm := 40 })
        = tax hotRate08 (mkOrder [mkItem "hot" 12 1000]) none :=
  ⟨(tax_independent_of_delivery hotRate08 (mkOrder [mkItem "hot" 12 1000]) none
      (some { zone := "outer", rush := true, distanceKm := 40 })).1,
   (tax_independent_of_delivery hotRate08 (mkOrder [mkItem "hot" 12 1000]) none
      (some { zone := "outer", rush := true, distanceKm := 40 })).2 _ rfl⟩

/-- C9: `deliveryFee` depends only on the sequence of the items' quantities and unit prices,
the customer tier, the zone and the rush flag: two calls that agree on these return the same
fee, whatever the distance, the coupon and the items' add-ons, kind, filling, sku and
title. -/
theorem deliveryFee_depends_only_on_qty_price_tier_zone_rush (o1 o2 : Order)
    (d1 d2 : Option DeliveryInfo) (p1 p2 : Option CustomerProfile)
    (hitems : (o1.items.map fun item => (item.qty, item.unitPriceCents))
      = (o2.items.map fun item => (item.qty, item.unitPriceCents)))
    (htier : (customerOf o1 p1).tier = (customerOf o2 p2).tier)
    (hzone : (deliveryInfoOf o1 d1).zone = (deliveryInfoOf o2 d2).zone)
    (hrush : (deliveryInfoOf o1 d1).rush = (deliveryInfoOf o2 d2).rush) :
    deliveryFee o1 d1 p1 = deliveryFee o2 d2 p2 := by
  have hsub : o1.items.foldl subtotalStep 0 = o2.items.foldl subtotalStep 0 :=
    foldl_eq_of_map_eq subtotalStep (fun item => (item.qty, item.unitPriceCents))
      (fun acc (t : Int × Int) => acc + t.2 * t.1) (fun _ _ => rfl) _ _ hitems 0
  have hvol : ∀ td : Member PackRates,
      o1.items.foldl (volumeStep td) 0 = o2.items.foldl (volumeStep td) 0 := fun td =>
    foldl_eq_of_map_eq (volumeStep td) (fun item => (item.qty, item.unitPriceCents))
      (fun acc (t : Int × Int) =>
        if t.1 ≥ 24 ∧ truthyRate (rate24 td) = true then
          acc + ⌊((t.2 * t.1 : Int) : ℚ) * (rate24 td).getD 0⌋
        else if t.1 ≥ 12 ∧ truthyRate (rate12 td) = true then
          acc + ⌊((t.2 * t.1 : Int) : ℚ) * (rate12 td).getD 0⌋
        else acc)
      (fun _ _ => rfl) _ _ hitems 0
  have hlen : o1.items.length = o2.items.length := by
    have := congrArg List.length hitems
    simpa using this
  unfold deliveryFee
  simp only [discountedSubtotal, foldl_zoneStep, htier, hzone, hrush, hsub, hvol, hlen]

theorem deliveryFee_depends_only_on_qty_price_tier_zone_rush_witness :
    deliveryFee (mkOrder [mkItem "hot" 12 1000])
        (some { zone := "outer", rush := true, distanceKm := 2 }) none
      = deliveryFee
          { id := "b",
            items := [{ sku := "P12-SAUER", kind := "frozen", title := "t",
                        filling := "mushroom", qty := 12, unitPriceCents := 1000,
                        addOns := ["bacon-bits", "sour-cream"] }],
            delivery := some { zone := "outer", rush := true, distanceKm := 40 },
            customer := some { tier := some "guest" }, coupon := some "FIRST10" }
          none none :=
  deliveryFee_depends_only_on_qty_price_tier_zone_rush _ _ _ _ _ _ rfl rfl rfl rfl

/-- The guest fallback of `deliveryFee` for a tier that is none of guest, regular and vip
and names no member inherited from `Object.prototype`. -/
theorem deliveryFee_unrecognized_tier_as_guest (order : Order) (d : DeliveryInfo)
    (p : CustomerProfile) (hun : ¬ recognizedTier p.tier) (hown : ¬ inheritedTier p.tier) :
    deliveryFee order (some d) (some p)
      = deliveryFee order (some d) (some { tier := some "guest" }) := by
  have hreg : p.tier ≠ some "regular" := fun e => hun (Or.inr (Or.inl e))
  have hvip : p.tier ≠ some "vip" := fun e => hun (Or.inr (Or.inr e))
  have hrate12 : specRate12 p.tier = specRate12 (some "guest") := by
    simp [specRate12, hreg]
  have hrate24 : specRate24 p.tier = specRate24 (some "guest") := by
    simp [specRate24, hreg]
  have hthr : specThreshold p.tier = specThreshold (some "guest") := by
    simp [specThreshold, hreg, hvip]
  have hdisc : specDiscountedSubtotal p.tier order.items
      = specDiscountedSubtotal (some "guest") order.items := by
    unfold specDiscountedSubtotal
    congr 2
    exact List.map_congr_left fun item _ => by
      unfold specVolumeDiscount
      rw [hrate12, hrate24]
  rw [deliveryFee_of_not_inherited order d p hown,
    deliveryFee_of_not_inherited order d { tier := some "guest" } (by decide), hdisc, hthr]

/-- C10: at the tier `toString`, which is none of guest, regular and vip, `deliveryFee`
does not return the guest fee. One item of quantity 1 at 6000 cents, zone local, no rush:
the fee is 399 at tier `toString` and 0 at tier guest. -/
theorem deliveryFee_inherited_tier_differs_from_guest :
    ¬ recognizedTier (some "toString")
      ∧ deliveryFee (mkOrder [mkItem "hot" 1 6000])
          (some { zone := "local", rush := false, distanceKm := 1 })
          (some { tier := some "toString" }) = 399
      ∧ deliveryFee (mkOrder [mkItem "hot" 1 6000])
          (some { zone := "local", rush := false, distanceKm := 1 })
          (some { tier := some "guest" }) = 0 := by
  refine ⟨by decide, by decide, by decide⟩

/-- C11: three-level defaulting in `total`. The profile handed to the stages is the
context's, else the order's customer, else `{ tier: 'guest' }`; the delivery is the
context's, else the order's, else `{ zone: 'local', rush: false, distanceKm: 1 }`; the
coupon is the context's coupon field when the context has one, else the order's coupon,
else `null`; each is resolved from its own two sources only. Consequently `total` without a
context equals `total` with the context built from the order's own customer, delivery and
coupon (the coupon field omitted or `null` when the order has none). A coupon code is
a non-empty string. -/
theorem total_three_level_defaulting (subtotal : Order → Int)
    (discounts : Order → CustomerProfile → Option String → Int) (lookup : String → ℚ)
    (order : Order) (context : Option Context) (hcoupon : order.coupon ≠ some "") :
    total subtotal discounts lookup order context
        = max 0 (subtotal order
            - discounts order
                (firstSupplied (context.bind fun ctx => ctx.profile) order.customer
                  { tier := some "guest" })
                (firstSupplied (context.bind fun ctx => ctx.coupon) (order.coupon.map some)
                  none)
            + deliveryFee order
                (some (firstSupplied (context.bind fun ctx => ctx.delivery) order.delivery
                  { zone := "local", rush := false, distanceKm := 1 }))
                (some (firstSupplied (context.bind fun ctx => ctx.profile) order.customer
                  { tier := some "guest" }))
            + tax lookup order
                (some (firstSupplied (context.bind fun ctx => ctx.delivery) order.delivery
                  { zone := "local", rush := false, distanceKm := 1 })))
      ∧ total subtotal discounts lookup order none
        = total subtotal discounts lookup order
            (some { profile := order.customer, delivery := order.delivery,
                    coupon := order.coupon.map some })
      ∧ total subtotal discounts lookup order none
        = total subtotal discounts lookup order
            (some { profile := order.customer, delivery := order.delivery,
                    coupon := some order.coupon }) := by
  have hc : orderCouponOrNull order = order.coupon := by
    unfold orderCouponOrNull
    cases hoc : order.coupon with
    | none => rfl
    | some c =>
      have hne : c ≠ "" := fun e => hcoupon (by rw [hoc, e])
      simp [hne]
  refine ⟨?_, ?_, ?_⟩
  · unfold total resolveProfile resolveDelivery resolveCoupon
    rw [hc]
    cases hp : (context.bind fun ctx => ctx.profile) <;>
      cases hd : (context.bind fun ctx => ctx.delivery) <;>
      cases hk : (context.bind fun ctx => ctx.coupon) <;>
      cases order.customer <;> cases order.delivery <;> cases order.coupon <;> rfl
  · unfold total resolveProfile resolveDelivery resolveCoupon
    rw [hc]
    cases order.customer <;> cases order.delivery <;> cases order.coupon <;> rfl
  · unfold total resolveProfile resolveDelivery resolveCoupon
    rw [hc]
    cases order.customer <;> cases order.delivery <;> cases order.coupon <;> rfl

theorem total_three_level_defaulting_witness :
    ({ id := "a", items := [mkItem "frozen" 6 500],
       delivery := some { zone := "outer", rush := true, distanceKm := 12 },
       customer := some { tier := some "vip" }, coupon := some "FIRST10" } : Order).coupon
        ≠ some ""
      ∧ total (fun _ => 3000) (fun _ _ _ => 300) hotRate08
          { id := "a", items := [mkItem "frozen" 6 500],
            delivery := some { zone := "outer", rush := true, distanceKm := 12 },
            customer := some { tier := some "vip" }, coupon := some "FIRST10" } none
        = total (fun _ => 3000) (fun _ _ _ => 300) hotRate08
          { id := "a", items := [mkItem "frozen" 6 500],
            delivery := some { zone := "outer", rush := true, distanceKm := 12 },
            customer := some { tier := some "vip" }, coupon := some "FIRST10" }
          (some { profile := some { tier := some "vip" },
                  delivery := some { zone := "outer", rush := true, distanceKm := 12 },
                  coupon := some (some "FIRST10") }) :=
  ⟨by decide,
    (total_three_level_defaulting (fun _ => 3000) (fun _ _ _ => 300) hotRate08
      { id := "a", items := [mkItem "frozen" 6 500],
        delivery := some { zone := "outer", rush := true, distanceKm := 12 },
        customer := some { tier := some "vip" }, coupon := some "FIRST10" } none
      (by decide)).2.1⟩

/-- C12: the delivery and profile arguments of `deliveryFee` are optional. With both
omitted the fee equals the fee for the order's own delivery and customer when the order
carries them, and the fee for `{ zone: 'local', rush: false, distanceKm: 1 }` and
`{ tier: 'guest' }` when the order carries neither; hence, for an order carrying its own
delivery and customer, the fee inside `total` without a context is `deliveryFee` with both
arguments omitted. -/
theorem deliveryFee_optional_arguments (order : Order) :
    (∀ d c, order.delivery = some d → order.customer = some c →
        deliveryFee order none none = deliveryFee order (some d) (some c))
      ∧ (order.delivery = none → order.customer = none →
        deliveryFee order none none
          = deliveryFee order (some { zone := "local", rush := false, distanceKm := 1 })
              (some { tier := some "guest" }))
      ∧ (∀ d c, order.delivery = some d → order.customer = some c →
          ∀ (subtotal : Order → Int)
            (discounts : Order → CustomerProfile → Option String → Int)
            (lookup : String → ℚ),
          total subtotal discounts lookup order none
            = max 0 (subtotal order - discounts order c (resolveCoupon order none)
                + deliveryFee order none none + tax lookup order none)) := by
  refine ⟨fun d c hd hc => ?_, fun hd hc => ?_, fun d c hd hc subtotal discounts lookup => ?_⟩
  · unfold deliveryFee deliveryInfoOf customerOf
    rw [hd, hc]
    rfl
  · unfold deliveryFee deliveryInfoOf customerOf
    rw [hd, hc]
    rfl
  · unfold total resolveProfile resolveDelivery deliveryFee tax deliveryInfoOf customerOf
    rw [hd, hc]
    rfl

theorem deliveryFee_optional_arguments_witness :
    deliveryFee
        { id := "a", items := [mkItem "frozen" 6 500, mkItem "hot" 6 700],
          delivery := some { zone := "outer", rush := true, distanceKm := 12 },
          customer := some { tier := some "regular" }, coupon := none } none none
        = deliveryFee
            { id := "a", items := [mkItem "frozen" 6 500, mkItem "hot" 6 700],
              delivery := some { zone := "outer", rush := true, distanceKm := 12 },
              customer := some { tier := some "regular" }, coupon := none }
            (some { zone := "outer", rush := true, distanceKm := 12 })
            (some { tier := some "regular" })
      ∧ deliveryFee (mkOrder [mkItem "frozen" 6 500]) none none
        = deliveryFee (mkOrder [mkItem "frozen" 6 500])
            (some { zone := "local", rush := false, distanceKm := 1 })
            (some { tier := some "guest" }) :=
  ⟨(deliveryFee_optional_arguments
      { id := "a", items := [mkItem "frozen" 6 500, mkItem "hot" 6 700],
        delivery := some { zone := "outer", rush := true, distanceKm := 12 },
        customer := some { tier := some "regular" }, coupon := none }).1 _ _ rfl rfl,
   (deliveryFee_optional_arguments (mkOrder [mkItem "frozen" 6 500])).2.1 rfl rfl⟩

/-- C13, as the claim states it, fails: for the empty order with rush set, `deliveryFee`
returns 299 and not 0, and with subtotal 0 and discounts 0 `total` returns 299. -/
theorem empty_order_rush_counterexample :
    (mkOrder []).items = []
      ∧ deliveryFee (mkOrder [])
          (some { zone := "local", rush := true, distanceKm := 1 })
          (some { tier := some "guest" }) = 299
      ∧ total (fun _ => 0) (fun _ _ _ => 0) hotRate08 (mkOrder [])
          (some { profile := some { tier := some "guest" },
                  delivery := some { zone := "local", rush := true, distanceKm := 1 },
                  coupon := none }) = 299 := by
  refine ⟨rfl, by decide, by decide⟩

/-- C13, amended: for every order whose items list is empty, every delivery info and every
profile, `deliveryFee` returns the rush surcharge alone (0 without rush, 299 with rush,
whatever the zone) and `tax` returns 0, so that with subtotal 0 and discounts 0 `total`
returns 0 without rush and 299 with rush. -/
theorem empty_order_amounts (order : Order) (d : DeliveryInfo) (p : CustomerProfile)
    (lookup : String → ℚ) (hempty : order.items = []) :
    deliveryFee order (some d) (some p) = (if d.rush = true then 299 else 0)
      ∧ tax lookup order (some d) = 0
      ∧ ∀ (subtotal : Order → Int)
          (discounts : Order → CustomerProfile → Option String → Int)
          (coupon : Option (Option String)),
          subtotal order = 0 → (∀ c, discounts order p c = 0) →
          total subtotal discounts lookup order
              (some { profile := some p, delivery := some d, coupon := coupon })
            = if d.rush = true then 299 else 0 := by
  have hfee : deliveryFee order (some d) (some p) = (if d.rush = true then 299 else 0) := by
    by_cases h : inheritedTier p.tier
    · rw [deliveryFee_of_inherited order d p h, hempty]
      simp [specRushFee]
    · have hthr : ¬ (0 : Int) > specThreshold p.tier := by
        unfold specThreshold
        split_ifs <;> decide
      rw [deliveryFee_of_not_inherited order d p h, hempty]
      simp only [specDiscountedSubtotal, List.map_nil, List.sum_nil, sub_self, if_neg hthr]
      simp [specRushFee]
  have htax : tax lookup order (some d) = 0 := by
    unfold tax
    rw [hempty]
    rfl
  refine ⟨hfee, htax, fun subtotal discounts coupon hs hd => ?_⟩
  have hunfold : total subtotal discounts lookup order
        (some { profile := some p, delivery := some d, coupon := coupon })
      = max 0 (subtotal order
          - discounts order p
              (resolveCoupon order
                (some { profile := some p, delivery := some d, coupon := coupon }))
          + deliveryFee order (some d) (some p) + tax lookup order (some d)) := rfl
  rw [hunfold, hs, hd, hfee, htax]
  split_ifs <;> decide

theorem empty_order_amounts_witness :
    (mkOrder []).items = []
      ∧ deliveryFee (mkOrder [])
          (some { zone := "outer", rush := false, distanceKm := 30 })
          (some { tier := some "regular" }) = 0
      ∧ tax hotRate08 (mkOrder [])
          (some { zone := "outer", rush := false, distanceKm := 30 }) = 0 :=
  ⟨rfl,
    (empty_order_amounts (mkOrder []) { zone := "outer", rush := false, distanceKm := 30 }
      { tier := some "regular" } hotRate08 rfl).1,
    (empty_order_amounts (mkOrder []) { zone := "outer", rush := false, distanceKm := 30 }
      { tier := some "regular" } hotRate08 rfl).2.1⟩

/-- C14: the rush surcharge is a flat 299 cents. For every order, zone, distance and
profile, `deliveryFee` with rush set equals `deliveryFee` without rush plus 299: in the
free-delivery branch the two fees are 299 and 0, in the fee-applies branch they are the
per-item zone fee plus 299 and the per-item zone fee. -/
theorem deliveryFee_rush_adds_299 (order : Order) (zone : String) (distanceKm : ℚ)
    (profile : Option CustomerProfile) :
    deliveryFee order (some { zone := zone, rush := true, distanceKm := distanceKm }) profile
        = deliveryFee order
            (some { zone := zone, rush := false, distanceKm := distanceKm }) profile + 299
      ∧ (exceeds (discountedSubtotal order.items (customerOf order profile).tier)
            (thresholdOf (customerOf order profile).tier) = true →
          deliveryFee order
              (some { zone := zone, rush := true, distanceKm := distanceKm }) profile = 299
            ∧ deliveryFee order
              (some { zone := zone, rush := false, distanceKm := distanceKm }) profile = 0)
      ∧ (exceeds (discountedSubtotal order.items (customerOf order profile).tier)
            (thresholdOf (customerOf order profile).tier) = false →
          deliveryFee order
              (some { zone := zone, rush := true, distanceKm := distanceKm }) profile
              = specZoneFee zone * order.items.length + 299
            ∧ deliveryFee order
              (some { zone := zone, rush := false, distanceKm := distanceKm }) profile
              = specZoneFee zone * order.items.length) := by
  refine ⟨?_, fun h => ?_, fun h => ?_⟩
  · unfold deliveryFee
    by_cases h : exceeds (discountedSubtotal order.items (customerOf order profile).tier)
        (thresholdOf (customerOf order profile).tier) = true <;>
      simp [deliveryInfoOf, h]
  · unfold deliveryFee
    simp [deliveryInfoOf, h]
  · unfold deliveryFee
    simp [deliveryInfoOf, h, foldl_zoneStep]

theorem deliveryFee_rush_adds_299_witness :
    deliveryFee (mkOrder [mkItem "hot" 1 6000])
        (some { zone := "outer", rush := true, distanceKm := 12 })
        (some { tier := some "guest" }) = 299
      ∧ deliveryFee (mkOrder [mkItem "hot" 1 4000, mkItem "frozen" 6 100])
        (some { zone := "outer", rush := true, distanceKm := 12 })
        (some { tier := some "guest" }) = specZoneFee "outer" * 2 + 299 :=
  ⟨((deliveryFee_rush_adds_299 (mkOrder [mkItem "hot" 1 6000]) "outer" 12
      (some { tier := some "guest" })).2.1 (by decide)).1,
   ((deliveryFee_rush_adds_299 (mkOrder [mkItem "hot" 1 4000, mkItem "frozen" 6 100]) "outer"
      12 (some { tier := some "guest" })).2.2 (by decide)).1⟩

/-- C15: order-independence across items. For every order and every permutation of its
items, `deliveryFee` and `tax` return on the permuted order the amounts they return on the
original one, for the same delivery, profile and rate lookup. -/
theorem fee_and_tax_invariant_under_permutation (order : Order) (permuted : List OrderItem)
    (hperm : permuted.Perm order.items) (delivery : Option DeliveryInfo)
    (profile : Option CustomerProfile) (lookup : String → ℚ) :
    deliveryFee { order with items := permuted } delivery profile
        = deliveryFee order delivery profile
      ∧ tax lookup { order with items := permuted } delivery = tax lookup order delivery := by
  constructor
  · unfold deliveryFee discountedSubtotal
    simp only [deliveryInfoOf, customerOf]
    rw [foldl_subtotalStep_perm _ _ hperm, foldl_volumeStep_perm _ _ _ hperm,
      foldl_zoneStep_perm _ _ _ hperm]
  · unfold tax
    exact foldl_taxStep_perm lookup _ _ hperm _

theorem fee_and_tax_invariant_under_permutation_witness :
    [mkItem "hot" 6 700, mkItem "frozen" 24 900, mkItem "hot" 12 1000].Perm
        (mkOrder [mkItem "frozen" 24 900, mkItem "hot" 12 1000, mkItem "hot" 6 700]).items
      ∧ deliveryFee (mkOrder [mkItem "hot" 6 700, mkItem "frozen" 24 900, mkItem "hot" 12 1000])
          none none
        = deliveryFee
            (mkOrder [mkItem "frozen" 24 900, mkItem "hot" 12 1000, mkItem "hot" 6 700])
            none none
      ∧ tax hotRate08
          (mkOrder [mkItem "hot" 6 700, mkItem "frozen" 24 900, mkItem "hot" 12 1000]) none
        = tax hotRate08
            (mkOrder [mkItem "frozen" 24 900, mkItem "hot" 12 1000, mkItem "hot" 6 700])
            none :=
  have hperm : [mkItem "hot" 6 700, mkItem "frozen" 24 900, mkItem "hot" 12 1000].Perm
      (mkOrder [mkItem "frozen" 24 900, mkItem "hot" 12 1000, mkItem "hot" 6 700]).items :=
    have hswap : ([mkItem "frozen" 24 900, mkItem "hot" 12 1000] ++ [mkItem "hot" 6 700]).Perm
        ([mkItem "hot" 6 700] ++ [mkItem "frozen" 24 900, mkItem "hot" 12 1000]) :=
      List.perm_append_comm
    hswap.symm
  ⟨hperm,
    (fee_and_tax_invariant_under_permutation
      (mkOrder [mkItem "frozen" 24 900, mkItem "hot" 12 1000, mkItem "hot" 6 700]) _ hperm
      none none hotRate08).1,
    (fee_and_tax_invariant_under_permutation
      (mkOrder [mkItem "frozen" 24 900, mkItem "hot" 12 1000, mkItem "hot" 6 700]) _ hperm
      none none hotRate08).2⟩

/-- C16: the guest order of one hot item of quantity 12 at 1000 cents, zone local, no rush,
no coupon, with the lookup rate 0.08: the discounted subtotal used by `deliveryFee` is 11400,
`deliveryFee` returns 0, `tax` returns 960, and with subtotal 12000 and discounts 600 `total`
returns 12360. -/
theorem scenario_guest_hot_twelve_pack (subtotal : Order → Int)
    (discounts : Order → CustomerProfile → Option String → Int) (lookup : String → ℚ)
    (hrate : lookup "hot" = 0.08)
    (hs : subtotal (mkOrder [mkItem "hot" 12 1000]) = 12000)
    (hd : discounts (mkOrder [mkItem "hot" 12 1000]) { tier := some "guest" } none = 600) :
    discountedSubtotal (mkOrder [mkItem "hot" 12 1000]).items (some "guest") = 11400
      ∧ deliveryFee (mkOrder [mkItem "hot" 12 1000])
          (some { zone := "local", rush := false, distanceKm := 1 })
          (some { tier := some "guest" }) = 0
      ∧ tax lookup (mkOrder [mkItem "hot" 12 1000])
          (some { zone := "local", rush := false, distanceKm := 1 }) = 960
      ∧ total subtotal discounts lookup (mkOrder [mkItem "hot" 12 1000])
          (some { profile := some { tier := some "guest" },
                  delivery := some { zone := "local", rush := false, distanceKm := 1 },
                  coupon := none }) = 12360 := by
  have hD : specDiscountedSubtotal (some "guest") (mkOrder [mkItem "hot" 12 1000]).items
      = 11400 := by
    simp [specDiscountedSubtotal, specVolumeDiscount, specRate12, mkOrder, mkItem]
    norm_num
  have hfee : deliveryFee (mkOrder [mkItem "hot" 12 1000])
      (some { zone := "local", rush := false, distanceKm := 1 })
      (some { tier := some "guest" }) = 0 := by
    rw [deliveryFee_of_not_inherited _ _ _ (by decide), hD]
    simp [specThreshold, specRushFee]
  have htax : tax lookup (mkOrder [mkItem "hot" 12 1000])
      (some { zone := "local", rush := false, distanceKm := 1 }) = 960 := by
    unfold tax
    rw [foldl_taxStep, hrate]
    simp [mkOrder, mkItem]
    norm_num
  refine ⟨?_, hfee, htax, ?_⟩
  · rw [discountedSubtotal_of_not_inherited _ _ (by decide), hD]
  · have hunfold : total subtotal discounts lookup (mkOrder [mkItem "hot" 12 1000])
          (some { profile := some { tier := some "guest" },
                  delivery := some { zone := "local", rush := false, distanceKm := 1 },
                  coupon := none })
        = max 0 (subtotal (mkOrder [mkItem "hot" 12 1000])
            - discounts (mkOrder [mkItem "hot" 12 1000]) { tier := some "guest" } none
            + deliveryFee (mkOrder [mkItem "hot" 12 1000])
                (some { zone := "local", rush := false, distanceKm := 1 })
                (some { tier := some "guest" })
            + tax lookup (mkOrder [mkItem "hot" 12 1000])
                (some { zone := "local", rush := false, distanceKm := 1 })) := rfl
    rw [hunfold, hs, hd, hfee, htax]
    decide

theorem scenario_guest_hot_twelve_pack_witness :
    hotRate08 "hot" = 0.08
      ∧ total (fun _ => 12000) (fun _ _ _ => 600) hotRate08 (mkOrder [mkItem "hot" 12 1000])
          (some { profile := some { tier := some "guest" },
                  delivery := some { zone := "local", rush := false, distanceKm := 1 },
                  coupon := none }) = 12360 :=
  have hr : hotRate08 "hot" = 0.08 := by simp [hotRate08]
  ⟨hr, (scenario_guest_hot_twelve_pack (fun _ => 12000) (fun _ _ _ => 600) hotRate08 hr
    rfl rfl).2.2.2⟩

/-- C17: the guest order of one frozen item of quantity 6 at 500 cents, zone outer, rush
set, no coupon: `deliveryFee` returns 699 * 1 + 299 = 998, `tax` returns 0, and with
subtotal 3000 and discounts 0 `total` returns 3998. -/
theorem scenario_guest_frozen_six_pack_rush (subtotal : Order → Int)
    (discounts : Order → CustomerProfile → Option String → Int) (lookup : String → ℚ)
    (hs : subtotal (mkOrder [mkItem "frozen" 6 500]) = 3000)
    (hd : discounts (mkOrder [mkItem "frozen" 6 500]) { tier := some "guest" } none = 0) :
    deliveryFee (mkOrder [mkItem "frozen" 6 500])
        (some { zone := "outer", rush := true, distanceKm := 1 })
        (some { tier := some "guest" }) = 699 * 1 + 299
      ∧ tax lookup (mkOrder [mkItem "frozen" 6 500])
          (some { zone := "outer", rush := true, distanceKm := 1 }) = 0
      ∧ total subtotal discounts lookup (mkOrder [mkItem "frozen" 6 500])
          (some { profile := some { tier := some "guest" },
                  delivery := some { zone := "outer", rush := true, distanceKm := 1 },
                  coupon := none }) = 3998 := by
  have hfee : deliveryFee (mkOrder [mkItem "frozen" 6 500])
      (some { zone := "outer", rush := true, distanceKm := 1 })
      (some { tier := some "guest" }) = 699 * 1 + 299 := by decide
  have htax : tax lookup (mkOrder [mkItem "frozen" 6 500])
      (some { zone := "outer", rush := true, distanceKm := 1 }) = 0 := by
    unfold tax
    rw [foldl_taxStep]
    simp [mkOrder, mkItem]
  refine ⟨hfee, htax, ?_⟩
  have hunfold : total subtotal discounts lookup (mkOrder [mkItem "frozen" 6 500])
        (some { profile := some { tier := some "guest" },
                delivery := some { zone := "outer", rush := true, distanceKm := 1 },
                coupon := none })
      = max 0 (subtotal (mkOrder [mkItem "frozen" 6 500])
          - discounts (mkOrder [mkItem "frozen" 6 500]) { tier := some "guest" } none
          + deliveryFee (mkOrder [mkItem "frozen" 6 500])
              (some { zone := "outer", rush := true, distanceKm := 1 })
              (some { tier := some "guest" })
          + tax lookup (mkOrder [mkItem "frozen" 6 500])
              (some { zone := "outer", rush := true, distanceKm := 1 })) := rfl
  rw [hunfold, hs, hd, hfee, htax]
  decide

theorem scenario_guest_frozen_six_pack_rush_witness :
    total (fun _ => 3000) (fun _ _ _ => 0) hotRate08 (mkOrder [mkItem "frozen" 6 500])
        (some { profile := some { tier := some "guest" },
                delivery := some { zone := "outer", rush := true, distanceKm := 1 },
                coupon := none }) = 3998 :=
  (scenario_guest_frozen_six_pack_rush (fun _ => 3000) (fun _ _ _ => 0) hotRate08
    rfl rfl).2.2

/-- C18: on an order with a hot item and a positive delivery fee, `tax` does not tax the
delivery fee. One hot item of quantity 6 at 500 cents, guest, zone local, no rush, lookup
rate 0.08: the delivery fee is 399 and the tax is 240, the hot item's own
`floor (3000 * 0.08)`, not more. -/
theorem tax_leaves_delivery_fee_untaxed :
    (∃ item ∈ (mkOrder [mkItem "hot" 6 500]).items, item.kind = "hot")
      ∧ deliveryFee (mkOrder [mkItem "hot" 6 500])
          (some { zone := "local", rush := false, distanceKm := 1 })
          (some { tier := some "guest" }) = 399
      ∧ tax hotRate08 (mkOrder [mkItem "hot" 6 500])
          (some { zone := "local", rush := false, distanceKm := 1 }) = 240
      ∧ (((mkOrder [mkItem "hot" 6 500]).items.filter fun item => item.kind = "hot").map
          fun item => ⌊((item.unitPriceCents * item.qty : Int) : ℚ) * 0.08⌋).sum = 240 := by
  refine ⟨⟨mkItem "hot" 6 500, by simp [mkOrder], rfl⟩, by decide, ?_, ?_⟩
  · unfold tax
    rw [foldl_taxStep]
    simp [mkOrder, mkItem, hotRate08]
    norm_num
  · simp [mkOrder, mkItem]
    norm_num

/-- C19: a better tier never pays more for delivery. For every order with non-negative unit
prices and quantities of at least 1 and every delivery info, the vip fee is at most the
regular fee, which is at most the guest fee, although the regular tier's discounted
subtotal is at most the guest tier's. -/
theorem deliveryFee_monotone_in_tier (order : Order) (d : DeliveryInfo)
    (hvalid : ∀ item ∈ order.items, 0 ≤ item.unitPriceCents ∧ 1 ≤ item.qty) :
    deliveryFee order (some d) (some { tier := some "vip" })
        ≤ deliveryFee order (some d) (some { tier := some "regular" })
      ∧ deliveryFee order (some d) (some { tier := some "regular" })
        ≤ deliveryFee order (some d) (some { tier := some "guest" })
      ∧ specDiscountedSubtotal (some "regular") order.items
        ≤ specDiscountedSubtotal (some "guest") order.items := by
  have hG0 : (0 : Int) * (order.items.map fun _ => (0 : Int)).sum
      ≤ 1 * (order.items.map (specVolumeDiscount (some "guest"))).sum :=
    sum_map_scaled_le _ _ 0 1 order.items fun item hmem => by
      have := specVolumeDiscount_guest_nonneg item (itemTotal_nonneg item (hvalid item hmem))
      omega
  have hGR : (order.items.map (specVolumeDiscount (some "guest"))).sum
      ≤ (order.items.map (specVolumeDiscount (some "regular"))).sum :=
    sum_map_le_sum_map _ _ order.items fun item hmem =>
      specVolumeDiscount_guest_le_regular item (itemTotal_nonneg item (hvalid item hmem))
  have hRS : 100 * (order.items.map (specVolumeDiscount (some "regular"))).sum
      ≤ 12 * (order.items.map fun item => item.unitPriceCents * item.qty).sum :=
    sum_map_scaled_le _ _ 100 12 order.items fun item hmem =>
      specVolumeDiscount_regular_le item (itemTotal_nonneg item (hvalid item hmem))
  have hVG : (order.items.map (specVolumeDiscount (some "vip")))
      = order.items.map (specVolumeDiscount (some "guest")) :=
    List.map_congr_left fun item _ => specVolumeDiscount_vip item
  have hZ : 0 ≤ specZoneFee d.zone * (order.items.length : Int) := by
    apply mul_nonneg
    · unfold specZoneFee
      split_ifs <;> decide
    · exact Int.natCast_nonneg _
  have htv : specThreshold (some "vip") = 3000 := by decide
  have htr : specThreshold (some "regular") = 4000 := by decide
  have htg : specThreshold (some "guest") = 5000 := by decide
  have hfv := deliveryFee_of_not_inherited order d { tier := some "vip" } (by decide)
  have hfr := deliveryFee_of_not_inherited order d { tier := some "regular" } (by decide)
  have hfg := deliveryFee_of_not_inherited order d { tier := some "guest" } (by decide)
  simp only [htv, htr, htg] at hfv hfr hfg
  rw [hfv, hfr, hfg]
  simp only [specDiscountedSubtotal, hVG]
  clear hfv hfr hfg
  refine ⟨?_, ?_, ?_⟩
  · split_ifs <;> omega
  · split_ifs <;> omega
  · omega

theorem deliveryFee_monotone_in_tier_witness :
    (∀ item ∈ (mkOrder [mkItem "hot" 6 600]).items, 0 ≤ item.unitPriceCents ∧ 1 ≤ item.qty)
      ∧ deliveryFee (mkOrder [mkItem "hot" 6 600])
          (some { zone := "local", rush := false, distanceKm := 1 })
          (some { tier := some "vip" })
        ≤ deliveryFee (mkOrder [mkItem "hot" 6 600])
          (some { zone := "local", rush := false, distanceKm := 1 })
          (some { tier := some "regular" }) :=
  have hv : ∀ item ∈ (mkOrder [mkItem "hot" 6 600]).items,
      0 ≤ item.unitPriceCents ∧ 1 ≤ item.qty := by
    simp [mkOrder, mkItem]
  ⟨hv, (deliveryFee_monotone_in_tier (mkOrder [mkItem "hot" 6 600])
    { zone := "local", rush := false, distanceKm := 1 } hv).1⟩

/-- C20: coupon resolution in `total` treats an explicit `null` differently from an omitted
field. For every order carrying a coupon, `total` with the context `{ coupon: null }` hands
`null` to `discounts`, whereas `total` with the context `{}` and `total` without a context
hand it the order's coupon; a missing or `null` profile and delivery in the context fall
through to the order's own customer and delivery in all three calls. -/
theorem total_coupon_null_versus_omitted (subtotal : Order → Int)
    (discounts : Order → CustomerProfile → Option String → Int) (lookup : String → ℚ)
    (order : Order) (code : String) (hcoupon : order.coupon = some code) (hcode : code ≠ "") :
    total subtotal discounts lookup order
        (some { profile := none, delivery := none, coupon := some none })
        = max 0 (subtotal order - discounts order (customerOf order none) none
            + deliveryFee order order.delivery order.customer
            + tax lookup order order.delivery)
      ∧ total subtotal discounts lookup order
          (some { profile := none, delivery := none, coupon := none })
        = max 0 (subtotal order - discounts order (customerOf order none) (some code)
            + deliveryFee order order.delivery order.customer
            + tax lookup order order.delivery)
      ∧ total subtotal discounts lookup order none
        = max 0 (subtotal order - discounts order (customerOf order none) (some code)
            + deliveryFee order order.delivery order.customer
            + tax lookup order order.delivery)
      ∧ (∀ customer, order.customer = some customer → customerOf order none = customer) := by
  have hc : orderCouponOrNull order = some code := by
    unfold orderCouponOrNull
    rw [hcoupon]
    simp [hcode]
  have hfee : deliveryFee order (some (order.delivery.getD defaultDelivery))
      (some (order.customer.getD defaultCustomer))
      = deliveryFee order order.delivery order.customer := by
    unfold deliveryFee deliveryInfoOf customerOf
    cases order.delivery <;> cases order.customer <;> rfl
  have htax : tax lookup order (some (order.delivery.getD defaultDelivery))
      = tax lookup order order.delivery := rfl
  refine ⟨?_, ?_, ?_, fun customer h => ?_⟩
  · rw [← hfee, ← htax]
    rfl
  · rw [← hfee, ← htax]
    unfold total resolveCoupon
    simp only [Option.bind_some, hc]
    rfl
  · rw [← hfee, ← htax]
    unfold total resolveCoupon
    simp only [Option.bind_none, hc]
    rfl
  · unfold customerOf
    rw [h]
    rfl

theorem total_coupon_null_versus_omitted_witness :
    total (fun _ => 3000) (fun _ _ coupon => if coupon = some "FIRST10" then 300 else 0)
        hotRate08
        { id := "a", items := [mkItem "frozen" 6 500],
          delivery := some { zone := "outer", rush := false, distanceKm := 12 },
          customer := some { tier := some "vip" }, coupon := some "FIRST10" }
        (some { profile := none, delivery := none, coupon := some none })
        = max 0 (3000 - 0 + 699 + 0)
      ∧ total (fun _ => 3000) (fun _ _ coupon => if coupon = some "FIRST10" then 300 else 0)
        hotRate08
        { id := "a", items := [mkItem "frozen" 6 500],
          delivery := some { zone := "outer", rush := false, distanceKm := 12 },
          customer := some { tier := some "vip" }, coupon := some "FIRST10" }
        none
        = max 0 (3000 - 300 + 699 + 0) :=
  ⟨(total_coupon_null_versus_omitted (fun _ => 3000)
      (fun _ _ coupon => if coupon = some "FIRST10" then 300 else 0) hotRate08
      { id := "a", items := [mkItem "frozen" 6 500],
        delivery := some { zone := "outer", rush := false, distanceKm := 12 },
        customer := some { tier := some "vip" }, coupon := some "FIRST10" }
      "FIRST10" rfl (by decide)).1.trans (by decide),
   (total_coupon_null_versus_omitted (fun _ => 3000)
      (fun _ _ coupon => if coupon = some "FIRST10" then 300 else 0) hotRate08
      { id := "a", items := [mkItem "frozen" 6 500],
        delivery := some { zone := "outer", rush := false, distanceKm := 12 },
        customer := some { tier := some "vip" }, coupon := some "FIRST10" }
      "FIRST10" rfl (by decide)).2.2.1.trans (by decide)⟩

end PierogiGo
